import Mathlib

/-!
Shallow embedding of `src/packages/api/src/purview-wrapper.ts`.

Effects are made explicit:
* `Math.random` draws become a stream `rand : Nat → Fin 16` (the code always
  uses `Math.trunc(Math.random() * 16)`, whose value set is `0..15`);
* each `new Date().toISOString()` read becomes the next value of a stream
  `clock : Nat → String` of ISO-rendered wall-clock readings;
* `process.env.X` becomes an `Option String` argument (JS treats the empty
  string as falsy, which the embedding reproduces);
* `fetch` becomes a `transport : Request → Response` oracle, and every
  function returns, next to its `Except` result, the list of requests it
  actually issued, in order.
-/

/-- Result of `s.replace(/\/+$/, "")`: the maximal trailing run of slash
characters is removed. -/
def stripTrailingSlashes (s : String) : String :=
  String.mk ((s.data.reverse.dropWhile (fun c => c = '/')).reverse)

/-- Result of `s.replace(/^\/+/, "")`: the maximal leading run of slash
characters is removed. -/
def stripLeadingSlashes (s : String) : String :=
  String.mk (s.data.dropWhile (fun c => c = '/'))

/-- Lowercase hexadecimal rendering of a digit, as `r.toString(16)` yields
for `0 ≤ r ≤ 15`. -/
def hexDigit (n : Nat) : Char :=
  if n < 10 then Char.ofNat (48 + n) else Char.ofNat (87 + n)

/-- The template string iterated by `generateGuid`. -/
def guidTemplate : List Char :=
  "xxxxxxxx-xxxx-4xxx-yxxx-xxxxxxxxxxxx".data

/-- The character-accumulating loop of `generateGuid`: an `x` consumes one
random draw, a `y` consumes one draw and maps it through `(r % 4) + 8`, and
every other template character is copied unchanged. -/
def guidCharsAux (rand : Nat → Fin 16) : List Char → Nat → List Char
  | [], _ => []
  | c :: cs, i =>
    if c = 'x' then hexDigit (rand i).val :: guidCharsAux rand cs (i + 1)
    else if c = 'y' then hexDigit ((rand i).val % 4 + 8) :: guidCharsAux rand cs (i + 1)
    else c :: guidCharsAux rand cs i

/-- `generateGuid` from the source, with the random draws passed in as a
stream. -/
def generateGuid (rand : Nat → Fin 16) : String :=
  String.mk (guidCharsAux rand guidTemplate 0)

/-- Check for a lowercase hexadecimal digit character. -/
def isLowerHexDigitChar (c : Char) : Bool :=
  (decide ('0' ≤ c) && decide (c ≤ '9')) || (decide ('a' ≤ c) && decide (c ≤ 'f'))

/-- The `content` sub-object of a content entry. -/
structure TextContent where
  odataType : String
  data : String
deriving Repr, DecidableEq

/-- One element of `contentToProcess.contentEntries`. -/
structure ContentEntry where
  odataType : String
  identifier : String
  content : TextContent
  name : String
  correlationId : String
  sequenceNumber : Int
  isTruncated : Bool
  createdDateTime : String
  modifiedDateTime : String
deriving Repr, DecidableEq

/-- The `activityMetadata` sub-object. -/
structure ActivityMetadata where
  activity : String
deriving Repr, DecidableEq

/-- The `operatingSystemSpecifications` sub-object. -/
structure OperatingSystemSpecifications where
  operatingSystemPlatform : String
  operatingSystemVersion : String
deriving Repr, DecidableEq

/-- The `deviceMetadata` sub-object. -/
structure DeviceMetadata where
  deviceType : String
  operatingSystemSpecifications : OperatingSystemSpecifications
deriving Repr, DecidableEq

/-- The `applicationLocation` sub-object. -/
structure ApplicationLocation where
  odataType : String
  value : String
deriving Repr, DecidableEq

/-- The `protectedAppMetadata` sub-object. -/
structure ProtectedAppMetadata where
  name : String
  version : String
  applicationLocation : ApplicationLocation
deriving Repr, DecidableEq

/-- The `integratedAppMetadata` sub-object. -/
structure IntegratedAppMetadata where
  name : String
  version : String
deriving Repr, DecidableEq

/-- The `contentToProcess` aggregate. -/
structure ContentToProcess where
  contentEntries : List ContentEntry
  activityMetadata : ActivityMetadata
  deviceMetadata : DeviceMetadata
  protectedAppMetadata : ProtectedAppMetadata
  integratedAppMetadata : IntegratedAppMetadata
deriving Repr, DecidableEq

/-- The document returned by `constructProcessContentRequestBody`. -/
structure ProcessContentRequest where
  contentToProcess : ContentToProcess
deriving Repr, DecidableEq

/-- `constructProcessContentRequestBody` from the source.  `rand` feeds the
`generateGuid()` call; `clock 0` and `clock 1` are the two successive
`new Date().toISOString()` reads (first `createdDateTime`, then
`modifiedDateTime`). -/
def constructProcessContentRequestBody (rand : Nat → Fin 16) (clock : Nat → String)
    (contentData : String) (name : String) (sequenceNo : Int)
    (correlationId : String) (activity : String) (applicationId : String) :
    ProcessContentRequest :=
  { contentToProcess :=
    { contentEntries :=
        [{ odataType := "microsoft.graph.processConversationMetadata"
           identifier := generateGuid rand
           content := { odataType := "microsoft.graph.textContent", data := contentData }
           name := name
           correlationId := correlationId
           sequenceNumber := sequenceNo
           isTruncated := false
           createdDateTime := clock 0
           modifiedDateTime := clock 1 }]
      activityMetadata := { activity := activity }
      deviceMetadata :=
        { deviceType := "managed"
          operatingSystemSpecifications :=
            { operatingSystemPlatform := "Windows 11"
              operatingSystemVersion := "10.0.26100.0" } }
      protectedAppMetadata :=
        { name := name
          version := "1.0"
          applicationLocation :=
            { odataType := "microsoft.graph.policyLocationApplication"
              value := applicationId } }
      integratedAppMetadata := { name := name, version := "1.0" } } }

/-- A JSON value, as produced by `response.json()`. -/
inductive Json where
  | str : String → Json
  | num : Int → Json
  | bool : Bool → Json
  | null : Json
  | arr : List Json → Json
  | obj : List (String × Json) → Json
deriving Repr

/-- A model of a `fetch` response: HTTP-level success flag and status, the
text rendering of the body (`response.text()`), the outcome of parsing the
body as JSON (`response.json()`), and header lookup by lower-cased name
(`response.headers.get`). -/
structure Response where
  ok : Bool
  status : Nat
  bodyText : String
  jsonResult : Except String Json
  headers : String → Option String

/-- The message of the error thrown when `PURVIEW_BASE_URL` is falsy. -/
def configErrorMsg : String :=
  "PURVIEW_BASE_URL is not defined in the environment variables."

/-- The message of the error thrown on a non-success Purview response. -/
def apiErrorMsg (status : Nat) (errorText : String) : String :=
  "API call failed with status " ++ toString status ++ ": " ++ errorText

/-- The message of the error thrown on a non-success Graph label response. -/
def labelErrorMsg (status : Nat) (errorText : String) : String :=
  "LabelInfo call failed - " ++ toString status ++ ": " ++ errorText

/-- Fixed path appended for the protection-scope endpoint. -/
def protectionScopePath : String :=
  "me/dataSecurityAndGovernance/protectionScopes/compute"

/-- Fixed path appended for the process-content endpoint. -/
def processContentPath : String :=
  "me/dataSecurityAndGovernance/processContent"

/-- URL built by `invokeProtectionScopeApi` from a present base URL. -/
def scopeApiUrl (purviewBaseUrl : String) : String :=
  stripTrailingSlashes purviewBaseUrl ++ "/" ++ stripLeadingSlashes protectionScopePath

/-- URL built by `invokeProcessContentApi` from a present base URL. -/
def processContentApiUrl (purviewBaseUrl : String) : String :=
  stripTrailingSlashes purviewBaseUrl ++ "/" ++ stripLeadingSlashes processContentPath

/-- The POST request issued by `invokeProtectionScopeApi`. -/
structure ScopeRequest where
  url : String
  authorization : String
  contentType : String
  body : String
deriving Repr, DecidableEq

/-- Request value assembled by `invokeProtectionScopeApi` (body is
`JSON.stringify` of the empty object). -/
def mkScopeRequest (purviewBaseUrl : String) (accessToken : String) : ScopeRequest :=
  { url := scopeApiUrl purviewBaseUrl
    authorization := "Bearer " ++ accessToken
    contentType := "application/json"
    body := "\x7b\x7d" }

/-- `invokeProtectionScopeApi` from the source.  Returns the result together
with the list of requests actually issued.  A missing or empty
`PURVIEW_BASE_URL` fails before any request is issued; a non-success status
fails with `apiErrorMsg`; on success the `etag` header (possibly absent) is
read and the body is parsed as JSON. -/
def invokeProtectionScopeApi (env : Option String) (accessToken : String)
    (transport : ScopeRequest → Response) :
    Except String (Json × Option String) × List ScopeRequest :=
  match env with
  | none => (Except.error configErrorMsg, [])
  | some purviewBaseUrl =>
    if purviewBaseUrl = "" then (Except.error configErrorMsg, [])
    else
      let req := mkScopeRequest purviewBaseUrl accessToken
      let response := transport req
      if response.ok = false then
        (Except.error (apiErrorMsg response.status response.bodyText), [req])
      else
        match response.jsonResult with
        | Except.error e => (Except.error e, [req])
        | Except.ok body => (Except.ok (body, response.headers "etag"), [req])

/-- The POST request issued by `invokeProcessContentApi`. -/
structure ProcessContentHttpRequest where
  url : String
  authorization : String
  contentType : String
  ifNoneMatch : String
  body : ProcessContentRequest
deriving Repr, DecidableEq

/-- Request value assembled by `invokeProcessContentApi`; the
`If-None-Match` header is `etag || ""`, so an absent or empty etag yields
the empty string and the header is always present. -/
def mkProcessContentHttpRequest (purviewBaseUrl : String) (accessToken : String)
    (etag : Option String) (requestBody : ProcessContentRequest) :
    ProcessContentHttpRequest :=
  { url := processContentApiUrl purviewBaseUrl
    authorization := "Bearer " ++ accessToken
    contentType := "application/json"
    ifNoneMatch := etag.getD ""
    body := requestBody }

/-- `invokeProcessContentApi` from the source.  On success the body is
returned as raw text together with the response headers. -/
def invokeProcessContentApi (env : Option String) (accessToken : String)
    (etag : Option String) (requestBody : ProcessContentRequest)
    (transport : ProcessContentHttpRequest → Response) :
    Except String (String × (String → Option String)) × List ProcessContentHttpRequest :=
  match env with
  | none => (Except.error configErrorMsg, [])
  | some purviewBaseUrl =>
    if purviewBaseUrl = "" then (Except.error configErrorMsg, [])
    else
      let req := mkProcessContentHttpRequest purviewBaseUrl accessToken etag requestBody
      let response := transport req
      if response.ok = false then
        (Except.error (apiErrorMsg response.status response.bodyText), [req])
      else
        (Except.ok (response.bodyText, response.headers), [req])

/-- Default Graph base URL used when `GRAPH_BASE_URL` resolves to a falsy
value. -/
def defaultGraphBaseUrl : String :=
  "https://graph.microsoft.com/v1.0"

/-- `process.env.GRAPH_BASE_URL?.replace(/\/+$/, "") || default`: an unset
variable, an empty one, or one consisting only of slashes all fall back to
the default; otherwise trailing slashes are stripped. -/
def resolveGraphBaseUrl (env : Option String) : String :=
  match env with
  | none => defaultGraphBaseUrl
  | some s =>
    if stripTrailingSlashes s = "" then defaultGraphBaseUrl
    else stripTrailingSlashes s

/-- The GET request issued by the three Graph label operations. -/
structure GraphRequest where
  url : String
  authorization : String
  accept : String
  userAgent : String
deriving Repr, DecidableEq

/-- Request value assembled by the Graph label operations. -/
def mkGraphRequest (url : String) (accessToken : String) : GraphRequest :=
  { url := url
    authorization := "Bearer " ++ accessToken
    accept := "application/json"
    userAgent := "Purview-API-Sample" }

/-- URL built by `invokeUserRightsForLables`. -/
def labelsUrl (env : Option String) : String :=
  resolveGraphBaseUrl env ++ "/" ++
    "security/dataSecurityAndGovernance/sensitivityLabels?$expand=rights,sublabels"

/-- URL built by `invokeUserRightsForSubLables`. -/
def subLabelsUrl (env : Option String) (labelId : String) : String :=
  resolveGraphBaseUrl env ++ "/" ++
    ("security/dataSecurityAndGovernance/sensitivityLabels/" ++ labelId ++ "/rights")

/-- The comma-separated, double-quoted rendering of the label ids:
`labelids.map((id) => `"id"`).join(",")`, with each id inserted verbatim. -/
def idsSegment (labelids : List String) : String :=
  String.intercalate "," (labelids.map (fun id => "\"" ++ id ++ "\""))

/-- URL built by `invokeLabelInheritance`. -/
def labelInheritanceUrl (env : Option String) (labelids : List String) : String :=
  resolveGraphBaseUrl env ++ "/" ++
    ("security/dataSecurityAndGovernance/sensitivityLabels/computeInheritance(labelIds=["
      ++ idsSegment labelids
      ++ "],locale=\x27en-US\x27,contentFormats=[\"File\"])")

/-- `invokeUserRightsForLables` from the source: one GET, error with
`labelErrorMsg` on a non-success status, raw body text otherwise. -/
def invokeUserRightsForLables (env : Option String) (accessToken : String)
    (transport : GraphRequest → Response) :
    Except String String × List GraphRequest :=
  let req := mkGraphRequest (labelsUrl env) accessToken
  let response := transport req
  if response.ok = false then
    (Except.error (labelErrorMsg response.status response.bodyText), [req])
  else
    (Except.ok response.bodyText, [req])

/-- `invokeUserRightsForSubLables` from the source. -/
def invokeUserRightsForSubLables (env : Option String) (accessToken : String)
    (labelId : String) (transport : GraphRequest → Response) :
    Except String String × List GraphRequest :=
  let req := mkGraphRequest (subLabelsUrl env labelId) accessToken
  let response := transport req
  if response.ok = false then
    (Except.error (labelErrorMsg response.status response.bodyText), [req])
  else
    (Except.ok response.bodyText, [req])

/-- `invokeLabelInheritance` from the source. -/
def invokeLabelInheritance (env : Option String) (accessToken : String)
    (labelids : List String) (transport : GraphRequest → Response) :
    Except String String × List GraphRequest :=
  let req := mkGraphRequest (labelInheritanceUrl env labelids) accessToken
  let response := transport req
  if response.ok = false then
    (Except.error (labelErrorMsg response.status response.bodyText), [req])
  else
    (Except.ok response.bodyText, [req])

/-- `enqueueOfflinePurviewTasksAsync` from the source.  The upload branch
runs first when `uploadTextMode = "evaluateOffline"`; a failure there
propagates and skips the download branch.  When the upload branch ran, the
download branch's payload construction sees the effect streams advanced by
the 31 random draws and 2 clock reads the first construction consumed.
On success the function returns the literal string "OK". -/
def enqueueOfflinePurviewTasksAsync (env : Option String) (rand : Nat → Fin 16)
    (clock : Nat → String) (accessToken : String) (etag : Option String)
    (name : String) (applicationId : String)
    (uploadTextMode : String) (downloadTextMode : String)
    (prompt : String) (response : String) (sessionId : String) (sequenceNo : Int)
    (transport : ProcessContentHttpRequest → Response) :
    Except String String × List ProcessContentHttpRequest :=
  if uploadTextMode = "evaluateOffline" then
    let body1 := constructProcessContentRequestBody rand clock prompt name
      sequenceNo sessionId "uploadText" applicationId
    let r1 := invokeProcessContentApi env accessToken etag body1 transport
    match r1.fst with
    | Except.error e => (Except.error e, r1.snd)
    | Except.ok _ =>
      if downloadTextMode = "evaluateOffline" then
        let body2 := constructProcessContentRequestBody (fun i => rand (i + 31))
          (fun i => clock (i + 2)) response name (sequenceNo + 1) sessionId
          "downloadText" applicationId
        let r2 := invokeProcessContentApi env accessToken etag body2 transport
        match r2.fst with
        | Except.error e => (Except.error e, r1.snd ++ r2.snd)
        | Except.ok _ => (Except.ok "OK", r1.snd ++ r2.snd)
      else (Except.ok "OK", r1.snd)
  else
    if downloadTextMode = "evaluateOffline" then
      let body2 := constructProcessContentRequestBody rand clock response name
        (sequenceNo + 1) sessionId "downloadText" applicationId
      let r2 := invokeProcessContentApi env accessToken etag body2 transport
      match r2.fst with
      | Except.error e => (Except.error e, r2.snd)
      | Except.ok _ => (Except.ok "OK", r2.snd)
    else (Except.ok "OK", [])

/-- A response value whose content is irrelevant, used to instantiate
transport oracles at concrete inputs. -/
def stubResponse : Response :=
  { ok := true
    status := 200
    bodyText := "stub"
    jsonResult := Except.ok Json.null
    headers := fun _ => none }

/-- A failing response used to instantiate transport oracles at concrete
inputs. -/
def failResponse : Response :=
  { ok := false
    status := 500
    bodyText := "boom"
    jsonResult := Except.error "not json"
    headers := fun _ => none }

/-- A request body built from trivial inputs, used at concrete instances. -/
def stubBody : ProcessContentRequest :=
  constructProcessContentRequestBody (fun _ => 0) (fun _ => "t") "" "" 0 "" "" ""

/-- Two strings are equal when their character lists are. -/
theorem stringDataInj {a b : String} (h : a.data = b.data) : a = b := by
  cases a
  cases b
  exact congrArg String.mk h

/-- The guid template, spelled out character by character. -/
theorem guidTemplate_eq : guidTemplate =
    ['x','x','x','x','x','x','x','x','-','x','x','x','x','-','4','x','x','x','-','y',
     'x','x','x','-','x','x','x','x','x','x','x','x','x','x','x','x'] := by
  decide

/-- The generated guid characters, spelled out: 30 `x` draws, the literal
hyphens and `4`, and the single `y` draw mapped through `(r % 4) + 8`. -/
theorem guidChars_eq (rand : Nat → Fin 16) : guidCharsAux rand guidTemplate 0 =
    [hexDigit (rand 0).val, hexDigit (rand 1).val, hexDigit (rand 2).val, hexDigit (rand 3).val,
     hexDigit (rand 4).val, hexDigit (rand 5).val, hexDigit (rand 6).val, hexDigit (rand 7).val,
     '-',
     hexDigit (rand 8).val, hexDigit (rand 9).val, hexDigit (rand 10).val, hexDigit (rand 11).val,
     '-', '4',
     hexDigit (rand 12).val, hexDigit (rand 13).val, hexDigit (rand 14).val,
     '-',
     hexDigit ((rand 15).val % 4 + 8),
     hexDigit (rand 16).val, hexDigit (rand 17).val, hexDigit (rand 18).val,
     '-',
     hexDigit (rand 19).val, hexDigit (rand 20).val, hexDigit (rand 21).val, hexDigit (rand 22).val,
     hexDigit (rand 23).val, hexDigit (rand 24).val, hexDigit (rand 25).val, hexDigit (rand 26).val,
     hexDigit (rand 27).val, hexDigit (rand 28).val, hexDigit (rand 29).val, hexDigit (rand 30).val] := by
  rw [guidTemplate_eq]
  rfl

/-- Every possible `x` draw renders as a lowercase hexadecimal digit. -/
theorem hexDigit_lower : ∀ v : Fin 16, isLowerHexDigitChar (hexDigit v.val) = true := by
  decide

/-- Every possible `y` draw renders as one of the four variant digits. -/
theorem hexDigit_y : ∀ v : Fin 16,
    hexDigit (v.val % 4 + 8) = '8' ∨ hexDigit (v.val % 4 + 8) = '9' ∨
    hexDigit (v.val % 4 + 8) = 'a' ∨ hexDigit (v.val % 4 + 8) = 'b' := by
  decide

/-- C5: for every sequence of random draws, the string returned by
`generateGuid` has length 36, hyphens at positions 8, 13, 18 and 23, the
character `4` at position 14, a character among `8`, `9`, `a`, `b` at
position 19, and a lowercase hexadecimal digit at every other position. -/
theorem generateGuid_format (rand : Nat → Fin 16) :
    (generateGuid rand).length = 36 ∧
    (generateGuid rand).data.get? 8 = some '-' ∧
    (generateGuid rand).data.get? 13 = some '-' ∧
    (generateGuid rand).data.get? 18 = some '-' ∧
    (generateGuid rand).data.get? 23 = some '-' ∧
    (generateGuid rand).data.get? 14 = some '4' ∧
    (∃ c, (generateGuid rand).data.get? 19 = some c ∧
      (c = '8' ∨ c = '9' ∨ c = 'a' ∨ c = 'b')) ∧
    (∀ i, i < 36 → i ≠ 8 → i ≠ 13 → i ≠ 18 → i ≠ 23 → i ≠ 14 → i ≠ 19 →
      ∃ c, (generateGuid rand).data.get? i = some c ∧ isLowerHexDigitChar c = true) := by
  have hg : (generateGuid rand).data = _ := guidChars_eq rand
  refine ⟨?_, by rw [hg]; rfl, by rw [hg]; rfl, by rw [hg]; rfl, by rw [hg]; rfl, by rw [hg]; rfl,
    ⟨hexDigit ((rand 15).val % 4 + 8), by rw [hg]; rfl, hexDigit_y (rand 15)⟩, ?_⟩
  · show (String.mk (guidCharsAux rand guidTemplate 0)).length = 36
    rw [String.length_mk, guidChars_eq]
    rfl
  · intro i h1 h2 h3 h4 h5 h6 h7
    rw [hg]
    interval_cases i
    all_goals first
      | exact absurd rfl (by assumption)
      | exact ⟨_, rfl, hexDigit_lower _⟩

/-- C3: every field of the document built by
`constructProcessContentRequestBody` that the claim names takes exactly the
claimed value: the single content entry carries the supplied sequence
number, correlation id and content data, `isTruncated` is false, the
activity and application location come from the supplied arguments, and the
three vendor discriminator strings are fixed. -/
theorem constructProcessContentRequestBody_fields (rand : Nat → Fin 16)
    (clock : Nat → String) (contentData : String) (name : String) (sequenceNo : Int)
    (correlationId : String) (activity : String) (applicationId : String) :
    ∃ e, (constructProcessContentRequestBody rand clock contentData name sequenceNo
        correlationId activity applicationId).contentToProcess.contentEntries = [e] ∧
      e.sequenceNumber = sequenceNo ∧
      e.correlationId = correlationId ∧
      e.content.data = contentData ∧
      (constructProcessContentRequestBody rand clock contentData name sequenceNo
        correlationId activity applicationId).contentToProcess.activityMetadata.activity = activity ∧
      (constructProcessContentRequestBody rand clock contentData name sequenceNo
        correlationId activity applicationId).contentToProcess.protectedAppMetadata.applicationLocation.value = applicationId ∧
      e.isTruncated = false ∧
      e.odataType = "microsoft.graph.processConversationMetadata" ∧
      e.content.odataType = "microsoft.graph.textContent" ∧
      (constructProcessContentRequestBody rand clock contentData name sequenceNo
        correlationId activity applicationId).contentToProcess.protectedAppMetadata.applicationLocation.odataType = "microsoft.graph.policyLocationApplication" :=
  ⟨_, rfl, rfl, rfl, rfl, rfl, rfl, rfl, rfl, rfl, rfl⟩

/-- C4, counterexample: `createdDateTime` and `modifiedDateTime` come from
two separate `new Date().toISOString()` reads; when the wall clock advances
to the next millisecond between the two reads, the two fields differ. -/
theorem constructProcessContentRequestBody_timestamps_counterexample :
    ∃ e, (constructProcessContentRequestBody (fun _ => 0)
        (fun i => if i = 0 then "2026-10-12T00:00:00.000Z" else "2026-10-12T00:00:00.001Z")
        "hello" "app" 3 "sess-1" "uploadText" "app-id").contentToProcess.contentEntries = [e] ∧
      ¬ e.createdDateTime = e.modifiedDateTime :=
  ⟨_, rfl, by decide⟩

/-- C4, amended: `createdDateTime` is the first wall-clock read at
construction and `modifiedDateTime` the second; whenever the two reads
render identically (in particular when both fall within the same
millisecond) the two fields are equal. -/
theorem constructProcessContentRequestBody_timestamps (rand : Nat → Fin 16)
    (clock : Nat → String) (contentData : String) (name : String) (sequenceNo : Int)
    (correlationId : String) (activity : String) (applicationId : String)
    (h : clock 0 = clock 1) :
    ∃ e, (constructProcessContentRequestBody rand clock contentData name sequenceNo
        correlationId activity applicationId).contentToProcess.contentEntries = [e] ∧
      e.createdDateTime = clock 0 ∧
      e.modifiedDateTime = clock 1 ∧
      e.createdDateTime = e.modifiedDateTime :=
  ⟨_, rfl, rfl, rfl, h⟩

/-- Witness for the amended C4 theorem at a constant clock. -/
theorem constructProcessContentRequestBody_timestamps_witness :
    ∃ e, (constructProcessContentRequestBody (fun _ => 0)
        (fun _ => "2026-10-12T00:00:00.000Z")
        "hello" "app" 3 "sess-1" "uploadText" "app-id").contentToProcess.contentEntries = [e] ∧
      e.createdDateTime = "2026-10-12T00:00:00.000Z" ∧
      e.modifiedDateTime = "2026-10-12T00:00:00.000Z" ∧
      e.createdDateTime = e.modifiedDateTime :=
  constructProcessContentRequestBody_timestamps (fun _ => 0)
    (fun _ => "2026-10-12T00:00:00.000Z") "hello" "app" 3 "sess-1" "uploadText" "app-id" rfl

/-- C6: when the `PURVIEW_BASE_URL` configuration value is absent, both
`invokeProtectionScopeApi` and `invokeProcessContentApi` fail with the
configuration error and their request traces are empty, so the failure
happens before any network request is issued. -/
theorem missingPurviewBaseUrl_fails_before_request (env : Option String)
    (accessToken1 : String) (accessToken2 : String) (etag : Option String)
    (requestBody : ProcessContentRequest)
    (transportScope : ScopeRequest → Response)
    (transportContent : ProcessContentHttpRequest → Response)
    (h : env = none) :
    invokeProtectionScopeApi env accessToken1 transportScope =
      (Except.error configErrorMsg, []) ∧
    invokeProcessContentApi env accessToken2 etag requestBody transportContent =
      (Except.error configErrorMsg, []) := by
  subst h
  exact ⟨rfl, rfl⟩

/-- Witness for C6 at concrete inputs. -/
theorem missingPurviewBaseUrl_fails_before_request_witness :
    invokeProtectionScopeApi none "tok" (fun _ => stubResponse) =
      (Except.error configErrorMsg, []) ∧
    invokeProcessContentApi none "tok" none stubBody (fun _ => stubResponse) =
      (Except.error configErrorMsg, []) :=
  missingPurviewBaseUrl_fails_before_request none "tok" "tok" none stubBody
    (fun _ => stubResponse) (fun _ => stubResponse) rfl

/-- C7: for `invokeProtectionScopeApi` with a present base URL, a
non-success response yields an error carrying the status code and body
text; a success response with a JSON-parsable body yields the parsed body
together with the `etag` header; and an absent `etag` header yields a null
etag without the operation failing. -/
theorem invokeProtectionScopeApi_response_handling (purviewBaseUrl : String)
    (accessToken : String) (transport : ScopeRequest → Response)
    (hb : ¬ purviewBaseUrl = "") :
    ((transport (mkScopeRequest purviewBaseUrl accessToken)).ok = false →
      invokeProtectionScopeApi (some purviewBaseUrl) accessToken transport =
        (Except.error (apiErrorMsg
            (transport (mkScopeRequest purviewBaseUrl accessToken)).status
            (transport (mkScopeRequest purviewBaseUrl accessToken)).bodyText),
          [mkScopeRequest purviewBaseUrl accessToken])) ∧
    (∀ j, (transport (mkScopeRequest purviewBaseUrl accessToken)).ok = true →
      (transport (mkScopeRequest purviewBaseUrl accessToken)).jsonResult = Except.ok j →
      invokeProtectionScopeApi (some purviewBaseUrl) accessToken transport =
        (Except.ok (j, (transport (mkScopeRequest purviewBaseUrl accessToken)).headers "etag"),
          [mkScopeRequest purviewBaseUrl accessToken])) ∧
    (∀ j, (transport (mkScopeRequest purviewBaseUrl accessToken)).ok = true →
      (transport (mkScopeRequest purviewBaseUrl accessToken)).jsonResult = Except.ok j →
      (transport (mkScopeRequest purviewBaseUrl accessToken)).headers "etag" = none →
      (invokeProtectionScopeApi (some purviewBaseUrl) accessToken transport).fst =
        Except.ok (j, none)) := by
  refine ⟨?_, ?_, ?_⟩
  · intro hfail
    simp only [invokeProtectionScopeApi, if_neg hb, hfail]
    rfl
  · intro j hok hjson
    simp only [invokeProtectionScopeApi, if_neg hb, hok, hjson]
    rfl
  · intro j hok hjson hetag
    simp only [invokeProtectionScopeApi, if_neg hb, hok, hjson, hetag]
    rfl

/-- Witness for C7: a concrete success transport with an absent etag
header; the operation returns the parsed body and a null etag. -/
theorem invokeProtectionScopeApi_response_handling_witness :
    invokeProtectionScopeApi (some "https://purview.example") "tok" (fun _ => stubResponse) =
      (Except.ok (Json.null, (stubResponse.headers "etag")),
        [mkScopeRequest "https://purview.example" "tok"]) :=
  (invokeProtectionScopeApi_response_handling "https://purview.example" "tok"
    (fun _ => stubResponse) (by decide)).2.1 Json.null rfl rfl

/-- C8: with a present base URL, `invokeProcessContentApi` issues exactly
one request whose `If-None-Match` header is the supplied etag string, and
an empty or absent etag yields the empty string with the header still
present as a field of the request. -/
theorem invokeProcessContentApi_ifNoneMatch (purviewBaseUrl : String)
    (accessToken : String) (etag : Option String)
    (requestBody : ProcessContentRequest)
    (transport : ProcessContentHttpRequest → Response)
    (hb : ¬ purviewBaseUrl = "") :
    (invokeProcessContentApi (some purviewBaseUrl) accessToken etag requestBody transport).snd =
      [mkProcessContentHttpRequest purviewBaseUrl accessToken etag requestBody] ∧
    (mkProcessContentHttpRequest purviewBaseUrl accessToken etag requestBody).ifNoneMatch =
      etag.getD "" ∧
    (∀ s, etag = some s →
      (mkProcessContentHttpRequest purviewBaseUrl accessToken etag requestBody).ifNoneMatch = s) ∧
    ((etag = none ∨ etag = some "") →
      (mkProcessContentHttpRequest purviewBaseUrl accessToken etag requestBody).ifNoneMatch = "") := by
  refine ⟨?_, rfl, ?_, ?_⟩
  · simp only [invokeProcessContentApi, if_neg hb]
    split <;> rfl
  · intro s hs
    subst hs
    rfl
  · intro h
    rcases h with h | h <;> subst h <;> rfl

/-- Witness for C8 at an empty etag: the issued request carries the empty
string as its `If-None-Match` header. -/
theorem invokeProcessContentApi_ifNoneMatch_witness :
    (invokeProcessContentApi (some "https://purview.example") "tok" (some "") stubBody
        (fun _ => stubResponse)).snd =
      [mkProcessContentHttpRequest "https://purview.example" "tok" (some "") stubBody] ∧
    (mkProcessContentHttpRequest "https://purview.example" "tok" (some "") stubBody).ifNoneMatch = "" :=
  ⟨(invokeProcessContentApi_ifNoneMatch "https://purview.example" "tok" (some "") stubBody
      (fun _ => stubResponse) (by decide)).1,
    (invokeProcessContentApi_ifNoneMatch "https://purview.example" "tok" (some "") stubBody
      (fun _ => stubResponse) (by decide)).2.2.2 (Or.inr rfl)⟩

/-- C9: `invokeLabelInheritance` issues exactly one request; its URL is the
resolved base followed by the fixed path with the comma-separated,
double-quoted label ids inserted verbatim between `labelIds=[` and `]`, and
for the ids `id-1`, `id-2` the URL contains the literal substring
`labelIds=["id-1","id-2"]`. -/
theorem invokeLabelInheritance_url (env : Option String) (accessToken : String)
    (labelids : List String) (transport : GraphRequest → Response) :
    (invokeLabelInheritance env accessToken labelids transport).snd =
      [mkGraphRequest (labelInheritanceUrl env labelids) accessToken] ∧
    labelInheritanceUrl env labelids =
      resolveGraphBaseUrl env ++ "/" ++
        ("security/dataSecurityAndGovernance/sensitivityLabels/computeInheritance(" ++
          ("labelIds=[" ++ idsSegment labelids ++ "]") ++
          ",locale=\x27en-US\x27,contentFormats=[\"File\"])") ∧
    idsSegment ["id-1", "id-2"] = "\"id-1\",\"id-2\"" ∧
    ("labelIds=[\"id-1\",\"id-2\"]").data <:+:
      (labelInheritanceUrl env ["id-1", "id-2"]).data := by
  have e1 : ("security/dataSecurityAndGovernance/sensitivityLabels/computeInheritance(labelIds=[" : String) =
      "security/dataSecurityAndGovernance/sensitivityLabels/computeInheritance("
      ++ "labelIds=[" := by
    decide
  have e2 : ("],locale=\x27en-US\x27,contentFormats=[\"File\"])" : String) =
      "]" ++ ",locale=\x27en-US\x27,contentFormats=[\"File\"])" := by
    decide
  refine ⟨?_, ?_, by decide, ?_⟩
  · simp only [invokeLabelInheritance]
    split <;> rfl
  · simp only [labelInheritanceUrl]
    rw [e1, e2]
    simp only [String.append_assoc]
  · have h3 : ("security/dataSecurityAndGovernance/sensitivityLabels/computeInheritance(labelIds=["
        ++ idsSegment ["id-1", "id-2"]
        ++ "],locale=\x27en-US\x27,contentFormats=[\"File\"])" : String) =
        "security/dataSecurityAndGovernance/sensitivityLabels/computeInheritance("
        ++ "labelIds=[\"id-1\",\"id-2\"]"
        ++ ",locale=\x27en-US\x27,contentFormats=[\"File\"])" := by
      decide
    refine ⟨(resolveGraphBaseUrl env ++ "/" ++
        "security/dataSecurityAndGovernance/sensitivityLabels/computeInheritance(").data,
      (",locale=\x27en-US\x27,contentFormats=[\"File\"])").data, ?_⟩
    simp only [labelInheritanceUrl, h3, String.data_append]
    simp [List.append_assoc]

/-- The head of a nonempty list is unchanged by appending on the right. -/
theorem head?_append_left {α : Type} (l t : List α) (h : ¬ l = []) :
    (l ++ t).head? = l.head? := by
  cases l with
  | nil => exact absurd rfl h
  | cons c cs => rfl

/-- The head of a `dropWhile` result never satisfies the dropped
predicate. -/
theorem head_dropWhile_false (p : Char → Bool) (l : List Char) :
    ∀ a, (l.dropWhile p).head? = some a → p a = false := by
  induction l with
  | nil => intro a h; cases h
  | cons c cs ih =>
    intro a h
    by_cases hc : p c
    · rw [List.dropWhile_cons_of_pos hc] at h
      exact ih a h
    · rw [List.dropWhile_cons_of_neg hc] at h
      cases h
      exact Bool.eq_false_iff.mpr hc

/-- The result of stripping trailing slashes never ends with a slash. -/
theorem stripTrailingSlashes_getLast (s : String) :
    ¬ (stripTrailingSlashes s).data.getLast? = some '/' := by
  intro h
  have hdata : (stripTrailingSlashes s).data =
      ((s.data.reverse.dropWhile (fun c => c = '/')).reverse) := rfl
  rw [hdata, List.getLast?_reverse] at h
  have := head_dropWhile_false (fun c => c = '/') s.data.reverse '/' h
  simp at this

/-- Dropping leading slashes ignores a prepended run of slashes. -/
theorem dropWhile_slash_replicate (k : Nat) (t : List Char) :
    List.dropWhile (fun c => c = '/') (List.replicate k '/' ++ t) =
      List.dropWhile (fun c => c = '/') t := by
  induction k with
  | zero => rfl
  | succ n ih =>
    rw [List.replicate_succ, List.cons_append, List.dropWhile_cons_of_pos (by simp)]
    exact ih

/-- Appending a run of trailing slashes does not change the stripped
base. -/
theorem stripTrailingSlashes_append_slashes (s : String) (k : Nat) :
    stripTrailingSlashes (s ++ String.mk (List.replicate k '/')) =
      stripTrailingSlashes s := by
  apply stringDataInj
  show ((s ++ String.mk (List.replicate k '/')).data.reverse.dropWhile
      (fun c => c = '/')).reverse = _
  rw [String.data_append]
  show ((s.data ++ List.replicate k '/').reverse.dropWhile (fun c => c = '/')).reverse = _
  rw [List.reverse_append, List.reverse_replicate, dropWhile_slash_replicate]
  rfl

/-- The resolved Graph base URL never ends with a slash. -/
theorem resolveGraphBaseUrl_getLast (env : Option String) :
    ¬ (resolveGraphBaseUrl env).data.getLast? = some '/' := by
  match env with
  | none => decide
  | some s =>
    show ¬ (if stripTrailingSlashes s = "" then defaultGraphBaseUrl
      else stripTrailingSlashes s).data.getLast? = some '/'
    by_cases hs : stripTrailingSlashes s = ""
    · rw [if_pos hs]; decide
    · rw [if_neg hs]; exact stripTrailingSlashes_getLast s

/-- C10: the two Purview clients build their URLs from
`PURVIEW_BASE_URL` with all trailing slashes stripped, joined to their
fixed path by a single slash (the stripped base never ends with a slash,
the paths never start with one, and extra trailing slashes on the
configured value are invisible); the three Graph label operations apply
the same trailing-slash stripping to `GRAPH_BASE_URL` and join with a
single slash in the same way. -/
theorem baseUrl_slash_handling (base : String) (k : Nat) (env : Option String)
    (labelId : String) (labelids : List String) :
    scopeApiUrl base = stripTrailingSlashes base ++ "/" ++ protectionScopePath ∧
    processContentApiUrl base = stripTrailingSlashes base ++ "/" ++ processContentPath ∧
    ¬ (stripTrailingSlashes base).data.getLast? = some '/' ∧
    ¬ protectionScopePath.data.head? = some '/' ∧
    ¬ processContentPath.data.head? = some '/' ∧
    scopeApiUrl (base ++ String.mk (List.replicate k '/')) = scopeApiUrl base ∧
    processContentApiUrl (base ++ String.mk (List.replicate k '/')) = processContentApiUrl base ∧
    resolveGraphBaseUrl (some base) =
      (if stripTrailingSlashes base = "" then defaultGraphBaseUrl
        else stripTrailingSlashes base) ∧
    resolveGraphBaseUrl (some (base ++ String.mk (List.replicate k '/'))) =
      resolveGraphBaseUrl (some base) ∧
    ¬ (resolveGraphBaseUrl env).data.getLast? = some '/' ∧
    labelsUrl env = resolveGraphBaseUrl env ++ "/" ++
      "security/dataSecurityAndGovernance/sensitivityLabels?$expand=rights,sublabels" ∧
    subLabelsUrl env labelId = resolveGraphBaseUrl env ++ "/" ++
      ("security/dataSecurityAndGovernance/sensitivityLabels/" ++ labelId ++ "/rights") ∧
    labelInheritanceUrl env labelids = resolveGraphBaseUrl env ++ "/" ++
      ("security/dataSecurityAndGovernance/sensitivityLabels/computeInheritance(labelIds=["
        ++ idsSegment labelids
        ++ "],locale=\x27en-US\x27,contentFormats=[\"File\"])") ∧
    ¬ ("security/dataSecurityAndGovernance/sensitivityLabels?$expand=rights,sublabels"
        : String).data.head? = some '/' ∧
    ¬ ("security/dataSecurityAndGovernance/sensitivityLabels/" ++ labelId ++ "/rights"
        : String).data.head? = some '/' ∧
    ¬ ("security/dataSecurityAndGovernance/sensitivityLabels/computeInheritance(labelIds=["
        ++ idsSegment labelids
        ++ "],locale=\x27en-US\x27,contentFormats=[\"File\"])" : String).data.head? =
      some '/' := by
  have hscope : scopeApiUrl base = stripTrailingSlashes base ++ "/" ++ protectionScopePath := by
    show stripTrailingSlashes base ++ "/" ++ stripLeadingSlashes protectionScopePath = _
    rw [show stripLeadingSlashes protectionScopePath = protectionScopePath from by decide]
  have hproc : processContentApiUrl base =
      stripTrailingSlashes base ++ "/" ++ processContentPath := by
    show stripTrailingSlashes base ++ "/" ++ stripLeadingSlashes processContentPath = _
    rw [show stripLeadingSlashes processContentPath = processContentPath from by decide]
  refine ⟨hscope, hproc, stripTrailingSlashes_getLast base, by decide, by decide, ?_, ?_,
    rfl, ?_, resolveGraphBaseUrl_getLast env, rfl, rfl, rfl, by decide, ?_, ?_⟩
  · show stripTrailingSlashes (base ++ String.mk (List.replicate k '/')) ++ "/" ++ _ = _
    rw [stripTrailingSlashes_append_slashes]
    rfl
  · show stripTrailingSlashes (base ++ String.mk (List.replicate k '/')) ++ "/" ++ _ = _
    rw [stripTrailingSlashes_append_slashes]
    rfl
  · show (if stripTrailingSlashes (base ++ String.mk (List.replicate k '/')) = ""
        then defaultGraphBaseUrl
        else stripTrailingSlashes (base ++ String.mk (List.replicate k '/'))) = _
    rw [stripTrailingSlashes_append_slashes]
    rfl
  · rw [String.data_append, String.data_append, List.append_assoc,
      head?_append_left _ _ (by decide)]
    decide
  · rw [String.data_append, String.data_append, List.append_assoc,
      head?_append_left _ _ (by decide)]
    decide

/-- A process-content request is a submission for `contentData` tagged
`tag` at sequence number `s` when its body's activity is `tag` and its
single content entry carries `s` and `contentData`. -/
def isSubmissionFor (req : ProcessContentHttpRequest) (tag : String) (s : Int)
    (contentData : String) : Prop :=
  req.body.contentToProcess.activityMetadata.activity = tag ∧
  ∃ e, req.body.contentToProcess.contentEntries = [e] ∧
    e.sequenceNumber = s ∧ e.content.data = contentData

/-- C1: in every non-failing run of `enqueueOfflinePurviewTasksAsync`
(present base URL, every issued request answered with a success status),
the function returns the string "OK"; a submission for the prompt tagged
`uploadText` at `sequenceNo` is made if and only if `uploadTextMode`
equals `evaluateOffline`; a submission for the response tagged
`downloadText` at `sequenceNo + 1` is made if and only if
`downloadTextMode` equals `evaluateOffline`, regardless of whether the
upload branch ran; and when neither mode equals `evaluateOffline` no
request at all is issued. -/
theorem enqueueOfflinePurviewTasksAsync_submissions (purviewBaseUrl : String)
    (rand : Nat → Fin 16) (clock : Nat → String) (accessToken : String)
    (etag : Option String) (name : String) (applicationId : String)
    (uploadTextMode : String) (downloadTextMode : String)
    (prompt : String) (response : String) (sessionId : String) (sequenceNo : Int)
    (transport : ProcessContentHttpRequest → Response)
    (hb : ¬ purviewBaseUrl = "")
    (hok : ∀ req, (transport req).ok = true) :
    (enqueueOfflinePurviewTasksAsync (some purviewBaseUrl) rand clock accessToken etag
        name applicationId uploadTextMode downloadTextMode prompt response sessionId
        sequenceNo transport).fst = Except.ok "OK" ∧
    ((∃ req ∈ (enqueueOfflinePurviewTasksAsync (some purviewBaseUrl) rand clock accessToken
        etag name applicationId uploadTextMode downloadTextMode prompt response sessionId
        sequenceNo transport).snd, isSubmissionFor req "uploadText" sequenceNo prompt) ↔
      uploadTextMode = "evaluateOffline") ∧
    ((∃ req ∈ (enqueueOfflinePurviewTasksAsync (some purviewBaseUrl) rand clock accessToken
        etag name applicationId uploadTextMode downloadTextMode prompt response sessionId
        sequenceNo transport).snd, isSubmissionFor req "downloadText" (sequenceNo + 1)
        response) ↔ downloadTextMode = "evaluateOffline") ∧
    (¬ uploadTextMode = "evaluateOffline" → ¬ downloadTextMode = "evaluateOffline" →
      (enqueueOfflinePurviewTasksAsync (some purviewBaseUrl) rand clock accessToken etag
        name applicationId uploadTextMode downloadTextMode prompt response sessionId
        sequenceNo transport).snd = []) := by
  by_cases hu : uploadTextMode = "evaluateOffline" <;>
    by_cases hd : downloadTextMode = "evaluateOffline" <;>
    simp only [enqueueOfflinePurviewTasksAsync, invokeProcessContentApi, hu, hd,
      if_neg hb, hok, if_true, if_false, Bool.true_eq_false, ite_false, ite_true] <;>
    simp [isSubmissionFor, mkProcessContentHttpRequest, constructProcessContentRequestBody,
      hu, hd]

/-- Witness for C1: upload mode `evaluateOffline`, download mode `skip`,
a success transport; the run returns "OK" and makes the upload submission. -/
theorem enqueueOfflinePurviewTasksAsync_submissions_witness :
    (enqueueOfflinePurviewTasksAsync (some "https://purview.example") (fun _ => 0)
        (fun _ => "t") "tok" (some "W/1") "app" "app-id" "evaluateOffline" "skip"
        "hello" "world" "sess-1" 3 (fun _ => stubResponse)).fst = Except.ok "OK" ∧
    ((∃ req ∈ (enqueueOfflinePurviewTasksAsync (some "https://purview.example") (fun _ => 0)
        (fun _ => "t") "tok" (some "W/1") "app" "app-id" "evaluateOffline" "skip"
        "hello" "world" "sess-1" 3 (fun _ => stubResponse)).snd,
      isSubmissionFor req "uploadText" 3 "hello") ↔ ("evaluateOffline" : String) = "evaluateOffline") :=
  ⟨(enqueueOfflinePurviewTasksAsync_submissions "https://purview.example" (fun _ => 0)
      (fun _ => "t") "tok" (some "W/1") "app" "app-id" "evaluateOffline" "skip"
      "hello" "world" "sess-1" 3 (fun _ => stubResponse) (by decide) (fun _ => rfl)).1,
    (enqueueOfflinePurviewTasksAsync_submissions "https://purview.example" (fun _ => 0)
      (fun _ => "t") "tok" (some "W/1") "app" "app-id" "evaluateOffline" "skip"
      "hello" "world" "sess-1" 3 (fun _ => stubResponse) (by decide) (fun _ => rfl)).2.1⟩

/-- C2: with both modes `evaluateOffline` and a present base URL, when the
first (uploadText) submission fails, the run fails with exactly the
upload call's API error, and the request trace contains only the upload
request, so the download submission is never attempted and no partial
success is reported. -/
theorem enqueueOfflinePurviewTasksAsync_firstFailureAborts (purviewBaseUrl : String)
    (rand : Nat → Fin 16) (clock : Nat → String) (accessToken : String)
    (etag : Option String) (name : String) (applicationId : String)
    (prompt : String) (response : String) (sessionId : String) (sequenceNo : Int)
    (transport : ProcessContentHttpRequest → Response)
    (hb : ¬ purviewBaseUrl = "")
    (hfail : (transport (mkProcessContentHttpRequest purviewBaseUrl accessToken etag
      (constructProcessContentRequestBody rand clock prompt name sequenceNo sessionId
        "uploadText" applicationId))).ok = false) :
    enqueueOfflinePurviewTasksAsync (some purviewBaseUrl) rand clock accessToken etag
        name applicationId "evaluateOffline" "evaluateOffline" prompt response sessionId
        sequenceNo transport =
      (Except.error (apiErrorMsg
          (transport (mkProcessContentHttpRequest purviewBaseUrl accessToken etag
            (constructProcessContentRequestBody rand clock prompt name sequenceNo sessionId
              "uploadText" applicationId))).status
          (transport (mkProcessContentHttpRequest purviewBaseUrl accessToken etag
            (constructProcessContentRequestBody rand clock prompt name sequenceNo sessionId
              "uploadText" applicationId))).bodyText),
        [mkProcessContentHttpRequest purviewBaseUrl accessToken etag
          (constructProcessContentRequestBody rand clock prompt name sequenceNo sessionId
            "uploadText" applicationId)]) ∧
    isSubmissionFor (mkProcessContentHttpRequest purviewBaseUrl accessToken etag
        (constructProcessContentRequestBody rand clock prompt name sequenceNo sessionId
          "uploadText" applicationId)) "uploadText" sequenceNo prompt := by
  refine ⟨?_, rfl, ⟨_, rfl, rfl, rfl⟩⟩
  simp only [enqueueOfflinePurviewTasksAsync, invokeProcessContentApi, if_neg hb, hfail,
    if_true, ite_true]

/-- Witness for C2 at a concrete failing transport: the error carries the
status 500 and body text of the failing response, and only the upload
request was issued. -/
theorem enqueueOfflinePurviewTasksAsync_firstFailureAborts_witness :
    enqueueOfflinePurviewTasksAsync (some "https://purview.example") (fun _ => 0)
        (fun _ => "t") "tok" (some "W/1") "app" "app-id" "evaluateOffline"
        "evaluateOffline" "hello" "world" "sess-1" 3 (fun _ => failResponse) =
      (Except.error (apiErrorMsg failResponse.status failResponse.bodyText),
        [mkProcessContentHttpRequest "https://purview.example" "tok" (some "W/1")
          (constructProcessContentRequestBody (fun _ => 0) (fun _ => "t") "hello" "app" 3
            "sess-1" "uploadText" "app-id")]) ∧
    isSubmissionFor (mkProcessContentHttpRequest "https://purview.example" "tok" (some "W/1")
        (constructProcessContentRequestBody (fun _ => 0) (fun _ => "t") "hello" "app" 3
          "sess-1" "uploadText" "app-id")) "uploadText" 3 "hello" :=
  enqueueOfflinePurviewTasksAsync_firstFailureAborts "https://purview.example" (fun _ => 0)
    (fun _ => "t") "tok" (some "W/1") "app" "app-id" "hello" "world" "sess-1" 3
    (fun _ => failResponse) (by decide) rfl
